import Mathlib

/-!
Verification of the santa-api assignment engine and its collaborators.

Shallow embedding of the JavaScript source in `src/index.js` (the same engine
also appears verbatim in the older server variant).  The embedding models:

* `createAssignments` (src/index.js lines 72-106): the Secret Santa engine —
  shuffle-and-reject derangement search with a 50-attempt budget;
* the in-place Fisher–Yates `shuffle` nested inside it (lines 80-85);
* `randomGroupCode` / `generateUniqueGroupCodeFile` (lines 50-59, 207-216);
* the file-storage handlers `POST /api/groups` (lines 336-470, file branch)
  and `PUT /api/groups/:id/participants` (lines 814-955, file branch).

JavaScript's `Math.random()` draws are modelled by explicit streams of natural
numbers: a draw used as `Math.floor(Math.random() * n)` (an arbitrary integer
in `[0, n)`) is modelled as `d % n` for an arbitrary `d : Nat`; every value in
`[0, n)` is realizable this way and no other values arise.  Thrown exceptions
are modelled with `Except`.
-/

namespace Santa

/-- A participant as stored by the server: `{ id, name, email }`
(src/index.js lines 422-426). Identity is the `id` string. -/
structure Participant where
  id : String
  name : String
  email : String
deriving DecidableEq, Repr

/-- One assignment `{ giverId, receiverId }` (src/index.js lines 102-105). -/
structure Assignment where
  giverId : String
  receiverId : String
deriving DecidableEq, Repr

/-- The two exceptions `createAssignments` can throw:
`insufficientParticipants` is `new Error('At least 2 participants are required
for assignments.')` (line 74) and `derangementUnobtainable` is
`new Error('Could not generate a valid assignment. Try again.')` (line 98). -/
inductive SantaError where
  | insufficientParticipants
  | derangementUnobtainable
deriving DecidableEq, Repr

/-- The argument of `createAssignments` as seen from JavaScript: either some
non-array value (every such value fails the `Array.isArray` test identically)
or an array of participants. -/
inductive JsInput where
  | notArray
  | array (participants : List Participant)

/-- JavaScript destructuring swap `[a[i], a[j]] = [a[j], a[i]]` (line 83).
Both indices are in bounds at every call site (`i ≤ array.length - 1` and
`j ≤ i`); out-of-bounds indices leave the list unchanged. -/
def listSwap (l : List α) (i j : Nat) : List α :=
  match l[i]?, l[j]? with
  | some a, some b => (l.set i b).set j a
  | _, _ => l

/-- The index drawn at loop position `i` of the shuffle:
`Math.floor(Math.random() * (i + 1))` (line 82), an arbitrary value in
`[0, i]`, modelled as `rand i % (i + 1)`. -/
def swapIndex (rand : Nat → Nat) (i : Nat) : Nat :=
  rand i % (i + 1)

/-- The countdown of the `for (let i = array.length - 1; i > 0; i--)` loop of
`shuffle` (lines 81-84): iterate from counter value `n` down to `1`, at each
position swapping index `i` with the drawn index `≤ i`. -/
def shuffleFrom (rand : Nat → Nat) : Nat → List α → List α
  | 0, l => l
  | i+1, l => shuffleFrom rand i (listSwap l (i+1) (swapIndex rand (i+1)))

/-- The nested `shuffle` function of `createAssignments` (lines 80-85):
Fisher–Yates over the whole array, i from `array.length - 1` down to `1`. -/
def shuffle (rand : Nat → Nat) (l : List α) : List α :=
  shuffleFrom rand (l.length - 1) l

/-- Model of `givers.some((giver, idx) => giver.id === receivers[idx].id)` (line 94).
`givers` and `receivers` always have equal length (both start as copies of
`participants` and shuffling preserves length), so pairing by `zip` coincides
with the indexwise access of the source. -/
def badMatch (givers receivers : List Participant) : Bool :=
  (givers.zip receivers).any (fun gr => gr.1.id == gr.2.id)

/-- Model of `givers.map((giver, idx) => ({ giverId: giver.id, receiverId:
receivers[idx].id }))` (lines 102-105); equal lengths as for `badMatch`. -/
def mkAssignments (givers receivers : List Participant) : List Assignment :=
  (givers.zip receivers).map (fun gr => { giverId := gr.1.id, receiverId := gr.2.id })

/-- Source constant `const maxAttempts = 50` (line 88). -/
def maxAttempts : Nat := 50

/-- The `do { shuffle(receivers); attempts++; ... } while (true)` loop of
`createAssignments` (lines 90-100).  `rng a` is the stream of draws consumed
by the shuffle performed when the `attempts` variable equals `a`.  Returns the
accepted receiver order (or the thrown error) together with the final value of
`attempts`.  `fuel` only justifies the recursion to Lean: the loop itself exits
via the `attempts >= maxAttempts` guard, and the entry call supplies
`fuel = maxAttempts`, which the guard is proven never to outrun
(`santaLoop_fuel_irrelevant`). -/
def santaLoop (rng : Nat → Nat → Nat) (givers : List Participant) :
    List Participant → Nat → Nat → Except SantaError (List Participant) × Nat
  | _, attempts, 0 => (.error .derangementUnobtainable, attempts)
  | receivers, attempts, fuel+1 =>
    let receivers2 := shuffle (rng attempts) receivers
    let attempts2 := attempts + 1
    if !(badMatch givers receivers2) then (.ok receivers2, attempts2)
    else if maxAttempts ≤ attempts2 then (.error .derangementUnobtainable, attempts2)
    else santaLoop rng givers receivers2 attempts2 fuel

/-- Model of `createAssignments` (src/index.js lines 72-106), instrumented to also
return the final value of the source's `attempts` counter (0 when the
function throws before entering the loop).  `givers = [...participants]` and
`receivers = [...participants]` are copies of the input; values are immutable
here, so both start as `participants` itself (the heap model below tracks the
copying explicitly). -/
def createAssignmentsRun (rng : Nat → Nat → Nat) (input : JsInput) :
    Except SantaError (List Assignment) × Nat :=
  match input with
  | .notArray => (.error .insufficientParticipants, 0)
  | .array participants =>
    if participants.length < 2 then (.error .insufficientParticipants, 0)
    else
      match santaLoop rng participants participants 0 maxAttempts with
      | (.ok receivers, attempts) => (.ok (mkAssignments participants receivers), attempts)
      | (.error e, attempts) => (.error e, attempts)

/-- Model of `createAssignments` proper: just the returned value / thrown error. -/
def createAssignments (rng : Nat → Nat → Nat) (input : JsInput) :
    Except SantaError (List Assignment) :=
  (createAssignmentsRun rng input).1

/-- The receiver array contents after `k` executions of `shuffle(receivers)`
starting from `participants` (the loop shuffles the same array in place, so
attempt `k`'s candidate is the shuffle of attempt `k-1`'s). -/
def iterShuffle (rng : Nat → Nat → Nat) (ps : List Participant) : Nat → List Participant
  | 0 => ps
  | k+1 => shuffle (rng k) (iterShuffle rng ps k)

/-! ## Heap model of the engine (mutation tracking)

JavaScript arrays are references into a heap; `const givers = [...participants]`
and `let receivers = [...participants]` allocate fresh arrays and
`shuffle(receivers)` mutates the `receivers` array in place through repeated
destructuring swaps.  To settle the frame property ("the caller's array is
never written") we re-run the engine over an explicit heap of arrays in which
every swap of the shuffle is a heap write, and only then relate it to the pure
function above. -/

/-- A heap of JavaScript arrays; a reference is an index into `arrays`. -/
structure Heap where
  arrays : List (List Participant)

/-- Dereference (reading an unallocated reference yields a dummy; the engine
only ever reads references it was given or allocated). -/
def Heap.read (h : Heap) (r : Nat) : List Participant :=
  (h.arrays[r]?).getD []

/-- Write through a reference. -/
def Heap.write (h : Heap) (r : Nat) (v : List Participant) : Heap :=
  ⟨h.arrays.set r v⟩

/-- Allocate a new array (`[...participants]`), returning its reference. -/
def Heap.alloc (h : Heap) (v : List Participant) : Heap × Nat :=
  (⟨h.arrays ++ [v]⟩, h.arrays.length)

/-- The in-place Fisher–Yates loop acting on the array behind `r`: each
iteration is one destructuring-swap write (line 83). -/
def shuffleRefFrom (rand : Nat → Nat) (r : Nat) : Nat → Heap → Heap
  | 0, h => h
  | i+1, h =>
    shuffleRefFrom rand r i (h.write r (listSwap (h.read r) (i+1) (swapIndex rand (i+1))))

/-- Model of `shuffle(array)` called on the array behind `r` (lines 80-85). -/
def shuffleRef (rand : Nat → Nat) (h : Heap) (r : Nat) : Heap :=
  shuffleRefFrom rand r ((h.read r).length - 1) h

/-- The retry loop of `createAssignments` with `receivers` kept in the heap
behind `r` and mutated in place, as in the source (lines 90-100). -/
def santaLoopH (rng : Nat → Nat → Nat) (givers : List Participant) (r : Nat) :
    Nat → Nat → Heap → Except SantaError (List Participant) × Nat × Heap
  | attempts, 0, h => (.error .derangementUnobtainable, attempts, h)
  | attempts, fuel+1, h =>
    let h2 := shuffleRef (rng attempts) h r
    let attempts2 := attempts + 1
    if !(badMatch givers (h2.read r)) then (.ok (h2.read r), attempts2, h2)
    else if maxAttempts ≤ attempts2 then (.error .derangementUnobtainable, attempts2, h2)
    else santaLoopH rng givers r attempts2 fuel h2

/-- Model of `createAssignments` over the heap: the caller passes a reference `pRef` to
its participants array; `givers` is the value copied out of it
(`const givers = [...participants]`, never mutated afterwards, lines 77, 94,
102) and `receivers` is a freshly allocated copy (`let receivers =
[...participants]`, line 78) that the loop shuffles in place. -/
def createAssignmentsH (rng : Nat → Nat → Nat) (h : Heap) (pRef : Nat) :
    Except SantaError (List Assignment) × Heap :=
  let participants := h.read pRef
  if participants.length < 2 then (.error .insufficientParticipants, h)
  else
    let givers := participants
    let ar := h.alloc participants
    match santaLoopH rng givers ar.2 0 maxAttempts ar.1 with
    | (.ok receivers, _, h2) => (.ok (mkAssignments givers receivers), h2)
    | (.error e, _, h2) => (.error e, h2)

/-! ## The collaborator layer: groups, file store, HTTP handlers

Models of the file-storage branch of the Express handlers.  `makeId()` outputs
are modelled by a supplied stream `freshIds`; the group code and timestamp of
`POST /api/groups` are parameters since they are produced after the engine
call (`generateUniqueGroupCodeFile()` / `new Date()`, lines 429-431) and do
not affect the properties verified here.  Response payloads are reduced to
status plus the fields the claims mention. -/

/-- A `{ name, email }` entry as sent in a request body. -/
structure ReqParticipant where
  name : String
  email : String
deriving DecidableEq, Repr

/-- A stored group object (src/index.js lines 433-442). -/
structure Group where
  id : String
  code : String
  groupName : String
  organizerName : String
  organizerEmail : String
  participants : List Participant
  assignments : List Assignment
  createdAt : String
deriving DecidableEq, Repr

/-- The `fileGroups` object: an association of group ids to groups. -/
abbrev FileGroups := List (String × Group)

/-- Model of `fileGroups[groupId] = group` (line 444): replace the binding if the key
is present, otherwise add it. -/
def storeSet : FileGroups → String → Group → FileGroups
  | [], key, g => [(key, g)]
  | (k, g') :: rest, key, g =>
    if k == key then (key, g) :: rest else (k, g') :: storeSet rest key g

/-- Model of `fileGroups[idOrCode]` (line 219). -/
def storeLookup : FileGroups → String → Option Group
  | [], _ => none
  | (k, g) :: rest, key => if k == key then some g else storeLookup rest key

/-- Model of `findFileGroupByIdOrCode` (lines 218-221): key lookup first, then search
by group code. -/
def findFileGroupByIdOrCode (store : FileGroups) (idOrCode : String) : Option Group :=
  match storeLookup store idOrCode with
  | some g => some g
  | none => (store.map Prod.snd).find? (fun g => g.code == idOrCode)

/-- Model of `participants.map((p) => ({ id: makeId(), name: p.name, email: p.email ||
'' }))` (lines 422-426 and 914-918), with `makeId()` outputs supplied by
`freshIds` in call order. -/
def assignIds (freshIds : Nat → String) : Nat → List ReqParticipant → List Participant
  | _, [] => []
  | i, p :: rest => { id := freshIds i, name := p.name, email := p.email } :: assignIds freshIds (i+1) rest

/-- JavaScript `String.prototype.trim()`: strip whitespace from both ends
(modelled over the character list; JS's WhiteSpace∪LineTerminator set is
represented by `Char.isWhitespace`, which covers the characters occurring in
this system's data). -/
def jsTrim (s : String) : String :=
  ⟨((s.data.dropWhile Char.isWhitespace).reverse.dropWhile Char.isWhitespace).reverse⟩

/-- The `cleaned` list of `PUT /api/groups/:id/participants` (lines 822-827):
trim both fields, keep entries with a non-empty name or email. -/
def cleanParticipants (participants : List ReqParticipant) : List ReqParticipant :=
  (participants.map (fun p => { name := jsTrim p.name, email := jsTrim p.email : ReqParticipant })).filter
    (fun p => p.name != "" || p.email != "")

/-- A request body's `participants` field: a non-array value or an array. -/
inductive ReqInput where
  | notArray
  | array (participants : List ReqParticipant)

/-- The possible responses of the modelled handlers, reduced to status code
plus the message / identifiers the source puts in the body. -/
inductive HttpResponse where
  | ok (body : String)
  | created (groupId groupCode : String)
  | badRequest (msg : String)
  | notFound (msg : String)
  | serverError (msg : String)
deriving DecidableEq, Repr

/-- File-storage branch of `POST /api/groups` (lines 336-349 validation and
421-468 file branch).  An engine throw is caught at line 465 and answered
with HTTP 500; the store is written (lines 444-445) only after the engine
returned. -/
def postGroupsFile (rng : Nat → Nat → Nat) (freshIds : Nat → String)
    (groupId groupCode createdAt : String) (store : FileGroups)
    (groupName organizerName organizerEmail : String) (input : ReqInput) :
    HttpResponse × FileGroups :=
  match input with
  | .notArray =>
    -- a non-array `participants` makes `!Array.isArray(participants)` fire
    -- the first validation whatever the other fields are
    (.badRequest "groupName, organizerName, organizerEmail, and participants[] are required.", store)
  | .array participants =>
    if groupName == "" || organizerName == "" || organizerEmail == "" then
      (.badRequest "groupName, organizerName, organizerEmail, and participants[] are required.", store)
    else
      if participants.length < 2 then
        (.badRequest "At least 2 participants are required.", store)
      else
        let participantList := assignIds freshIds 0 participants
        match createAssignments rng (.array participantList) with
        | .error _ => (.serverError "Failed to create group.", store)
        | .ok assignments =>
          let group : Group :=
            { id := groupId, code := groupCode, groupName := groupName,
              organizerName := organizerName, organizerEmail := organizerEmail,
              participants := participantList, assignments := assignments,
              createdAt := createdAt }
          (.created groupId groupCode, storeSet store groupId group)

/-- File-storage branch of `PUT /api/groups/:id/participants` (lines 814-833
validation and 908-949 file branch).  An engine throw is caught at line 950
and answered with HTTP 500; the group object is mutated and saved (lines
922-927) only after the engine returned. -/
def putParticipantsFile (rng : Nat → Nat → Nat) (freshIds : Nat → String)
    (store : FileGroups) (idOrCode : String) (input : ReqInput) :
    HttpResponse × FileGroups :=
  match input with
  | .notArray => (.badRequest "participants[] is required.", store)
  | .array participants =>
    let cleaned := cleanParticipants participants
    if cleaned.length < 2 then
      (.badRequest "At least 2 non-empty participants (name or email) are required.", store)
    else
      match findFileGroupByIdOrCode store idOrCode with
      | none => (.notFound "Group not found.", store)
      | some g =>
        let participantList := assignIds freshIds 0 cleaned
        match createAssignments rng (.array participantList) with
        | .error _ => (.serverError "Failed to update participants.", store)
        | .ok assignments =>
          (.ok "Participants replaced.", storeSet store g.id
            { g with participants := participantList, assignments := assignments })

/-! ## Group codes -/

/-- Source constant `const CODE_CHARS = 'ABCDEFGHJKLMNPQRSTUVWXYZ23456789'` (line 50). -/
def CODE_CHARS : String := "ABCDEFGHJKLMNPQRSTUVWXYZ23456789"

/-- Model of `CODE_CHARS[Math.floor(Math.random() * CODE_CHARS.length)]`: one drawn
code character (lines 55-56). -/
def codeChar (d : Nat) : Char :=
  CODE_CHARS.data.getD (d % CODE_CHARS.data.length) 'A'

/-- Model of `randomGroupCode` (lines 52-59): start from `'SANTA-'` and append six
drawn characters. -/
def randomGroupCode (rand : Nat → Nat) : String :=
  ⟨(List.range 6).foldl (fun code i => code ++ [codeChar (rand i)]) "SANTA-".data⟩

/-- The `existingCodes` set of `generateUniqueGroupCodeFile` (lines 208-210):
all stored group codes, `filter(Boolean)` dropping empty ones. -/
def existingCodesOf (store : FileGroups) : List String :=
  ((store.map Prod.snd).map (fun g => g.code)).filter (fun c => c != "")

/-- Model of `generateUniqueGroupCodeFile` (lines 207-216): redraw until the code is
not already taken.  The source loop has no bound; `fuel` caps the redraws and
`none` models non-termination of the adversarial-random corner. -/
def generateUniqueGroupCodeFile (rand : Nat → Nat → Nat) (store : FileGroups) :
    Nat → Option String
  | 0 => none
  | fuel+1 =>
    let code := randomGroupCode (rand fuel)
    if code ∈ existingCodesOf store then generateUniqueGroupCodeFile rand store fuel
    else some code

/-! ## Permutation lemmas for the shuffle -/

theorem set_cons_perm (b x : α) : ∀ (xs : List α) (k : Nat), xs[k]? = some b →
    (b :: xs.set k x).Perm (x :: xs)
  | [], k, h => by simp at h
  | c :: t, 0, h => by
    simp only [List.getElem?_cons_zero, Option.some.injEq] at h
    rw [← h]
    exact List.Perm.swap x c t
  | c :: t, k+1, h => by
    simp only [List.getElem?_cons_succ] at h
    have h1 : List.Perm (b :: c :: t.set k x) (c :: b :: t.set k x) := List.Perm.swap c b _
    have h2 : List.Perm (c :: b :: t.set k x) (c :: x :: t) := (set_cons_perm b x t k h).cons c
    have h3 : List.Perm (c :: x :: t) (x :: c :: t) := List.Perm.swap x c t
    exact h1.trans (h2.trans h3)

theorem set_set_swap_perm : ∀ (l : List α) (i j : Nat) (a b : α),
    l[i]? = some a → l[j]? = some b → ((l.set i b).set j a).Perm l
  | [], _, _, _, _, hi, _ => by simp at hi
  | x :: t, 0, 0, a, b, hi, hj => by
    simp only [List.getElem?_cons_zero, Option.some.injEq] at hi hj
    rw [← hi, ← hj]
    exact List.Perm.refl _
  | x :: t, 0, j+1, a, b, hi, hj => by
    simp only [List.getElem?_cons_zero, List.getElem?_cons_succ, Option.some.injEq] at hi hj
    rw [← hi]
    exact set_cons_perm b x t j hj
  | x :: t, i+1, 0, a, b, hi, hj => by
    simp only [List.getElem?_cons_zero, List.getElem?_cons_succ, Option.some.injEq] at hi hj
    rw [← hj]
    exact set_cons_perm a x t i hi
  | x :: t, i+1, j+1, a, b, hi, hj => by
    simp only [List.getElem?_cons_succ] at hi hj
    exact (set_set_swap_perm t i j a b hi hj).cons x

theorem listSwap_perm (l : List α) (i j : Nat) : (listSwap l i j).Perm l := by
  unfold listSwap
  cases hi : l[i]? with
  | none => cases hj : l[j]? <;> exact List.Perm.refl l
  | some a =>
    cases hj : l[j]? with
    | none => exact List.Perm.refl l
    | some b => exact set_set_swap_perm l i j a b hi hj

theorem listSwap_length (l : List α) (i j : Nat) : (listSwap l i j).length = l.length :=
  (listSwap_perm l i j).length_eq

theorem shuffleFrom_perm (rand : Nat → Nat) : ∀ (n : Nat) (l : List α),
    (shuffleFrom rand n l).Perm l
  | 0, l => List.Perm.refl l
  | n+1, l =>
    (shuffleFrom_perm rand n _).trans (listSwap_perm l (n+1) (swapIndex rand (n+1)))

theorem shuffle_perm (rand : Nat → Nat) (l : List α) : (shuffle rand l).Perm l :=
  shuffleFrom_perm rand (l.length - 1) l

theorem iterShuffle_perm (rng : Nat → Nat → Nat) (ps : List Participant) :
    ∀ k, (iterShuffle rng ps k).Perm ps
  | 0 => List.Perm.refl ps
  | k+1 => (shuffle_perm (rng k) _).trans (iterShuffle_perm rng ps k)

/-! ## Characterization of the retry loop -/

/-- One unfolding of the loop body. -/
theorem santaLoop_succ (rng : Nat → Nat → Nat) (gs rcv : List Participant) (a fuel : Nat) :
    santaLoop rng gs rcv a (fuel+1) =
      (if !(badMatch gs (shuffle (rng a) rcv)) then (.ok (shuffle (rng a) rcv), a+1)
       else if maxAttempts ≤ a+1 then (.error .derangementUnobtainable, a+1)
       else santaLoop rng gs (shuffle (rng a) rcv) (a+1) fuel) := rfl

/-- Complete description of the loop started after `a` shuffles with the live
receiver array: either some candidate within the budget is fixed-point-free
and the loop returns the first such one (at its attempt index), or every
remaining candidate has a fixed point and the loop throws with the counter
exhausted. -/
theorem santaLoop_characterization (rng : Nat → Nat → Nat) (gs : List Participant) :
    ∀ (fuel a : Nat), a + fuel = maxAttempts →
    (∃ k, a < k ∧ k ≤ maxAttempts ∧ badMatch gs (iterShuffle rng gs k) = false ∧
        (∀ j, a < j → j < k → badMatch gs (iterShuffle rng gs j) = true) ∧
        santaLoop rng gs (iterShuffle rng gs a) a fuel = (.ok (iterShuffle rng gs k), k)) ∨
    ((∀ k, a < k → k ≤ maxAttempts → badMatch gs (iterShuffle rng gs k) = true) ∧
        santaLoop rng gs (iterShuffle rng gs a) a fuel
          = (.error .derangementUnobtainable, maxAttempts)) := by
  intro fuel
  induction fuel with
  | zero =>
    intro a ha
    right
    refine ⟨fun k hk hk' => absurd (hk.trans_le hk') (by omega), ?_⟩
    have : a = maxAttempts := by omega
    subst this
    rfl
  | succ fuel ih =>
    intro a ha
    have hstep : shuffle (rng a) (iterShuffle rng gs a) = iterShuffle rng gs (a+1) := rfl
    rw [santaLoop_succ, hstep]
    cases hb : badMatch gs (iterShuffle rng gs (a+1)) with
    | false =>
      left
      exact ⟨a+1, by omega, by omega, hb, fun j hj hjk => absurd (hj.trans hjk) (by omega),
        by simp [hb]⟩
    | true =>
      by_cases hle : maxAttempts ≤ a + 1
      · right
        have ha1 : a + 1 = maxAttempts := by omega
        refine ⟨fun k hk hk' => ?_, by simp [hb, hle, ha1]⟩
        have : k = a + 1 := by omega
        subst this
        exact hb
      · rw [if_neg (by simp), if_neg hle]
        rcases ih (a+1) (by omega) with ⟨k, h1, h2, h3, h4, h5⟩ | ⟨h1, h2⟩
        · left
          refine ⟨k, by omega, h2, h3, fun j hj hjk => ?_, h5⟩
          by_cases hja : j = a + 1
          · subst hja; exact hb
          · exact h4 j (by omega) hjk
        · right
          refine ⟨fun k hk hk' => ?_, h2⟩
          by_cases hka : k = a + 1
          · subst hka; exact hb
          · exact h1 k (by omega) hk'

/-! ## Properties of the produced assignment list -/

theorem mkAssignments_length (gs rs : List Participant) (hl : rs.length = gs.length) :
    (mkAssignments gs rs).length = gs.length := by
  simp [mkAssignments, hl]

theorem mkAssignments_givers (gs rs : List Participant) (hl : gs.length ≤ rs.length) :
    (mkAssignments gs rs).map (fun a => a.giverId) = gs.map (fun p => p.id) := by
  unfold mkAssignments
  rw [List.map_map,
    show ((fun a : Assignment => a.giverId) ∘
        (fun gr : Participant × Participant =>
          ({ giverId := gr.1.id, receiverId := gr.2.id } : Assignment)))
      = (fun p : Participant => p.id) ∘ Prod.fst from rfl,
    ← List.map_map, List.map_fst_zip gs rs hl]

theorem mkAssignments_receivers (gs rs : List Participant) (hl : rs.length ≤ gs.length) :
    (mkAssignments gs rs).map (fun a => a.receiverId) = rs.map (fun p => p.id) := by
  unfold mkAssignments
  rw [List.map_map,
    show ((fun a : Assignment => a.receiverId) ∘
        (fun gr : Participant × Participant =>
          ({ giverId := gr.1.id, receiverId := gr.2.id } : Assignment)))
      = (fun p : Participant => p.id) ∘ Prod.snd from rfl,
    ← List.map_map, List.map_snd_zip gs rs hl]

theorem mkAssignments_no_self (gs rs : List Participant) (hb : badMatch gs rs = false) :
    ∀ a ∈ mkAssignments gs rs, a.giverId ≠ a.receiverId := by
  intro a ha
  unfold mkAssignments at ha
  rw [List.mem_map] at ha
  obtain ⟨gr, hgr, rfl⟩ := ha
  simp only [badMatch, List.any_eq_false, beq_iff_eq] at hb
  exact hb gr hgr

/-- Behaviour of `createAssignmentsRun` on a long-enough array: either the first
fixed-point-free candidate within the budget is turned into the assignment
list (with the attempt counter at its index), or all candidates have fixed
points and the call throws with the counter exhausted. -/
theorem createAssignmentsRun_eq (rng : Nat → Nat → Nat) (ps : List Participant)
    (hlen : 2 ≤ ps.length) :
    (∃ k, 1 ≤ k ∧ k ≤ maxAttempts ∧ badMatch ps (iterShuffle rng ps k) = false ∧
        (∀ j, 1 ≤ j → j < k → badMatch ps (iterShuffle rng ps j) = true) ∧
        createAssignmentsRun rng (.array ps)
          = (.ok (mkAssignments ps (iterShuffle rng ps k)), k)) ∨
    ((∀ k, 1 ≤ k → k ≤ maxAttempts → badMatch ps (iterShuffle rng ps k) = true) ∧
        createAssignmentsRun rng (.array ps)
          = (.error .derangementUnobtainable, maxAttempts)) := by
  have hnot : ¬ ps.length < 2 := by omega
  have harr : createAssignmentsRun rng (.array ps)
      = (match santaLoop rng ps (iterShuffle rng ps 0) 0 maxAttempts with
        | (.ok receivers, attempts) => (.ok (mkAssignments ps receivers), attempts)
        | (.error e, attempts) => (.error e, attempts)) := by
    show (if ps.length < 2 then ((.error .insufficientParticipants, 0) :
        Except SantaError (List Assignment) × Nat)
      else match santaLoop rng ps (iterShuffle rng ps 0) 0 maxAttempts with
        | (.ok receivers, attempts) => (.ok (mkAssignments ps receivers), attempts)
        | (.error e, attempts) => (.error e, attempts)) = _
    rw [if_neg hnot]
  rcases santaLoop_characterization rng ps maxAttempts 0 (by simp) with
    ⟨k, h1, h2, h3, h4, h5⟩ | ⟨h1, h2⟩
  · left
    exact ⟨k, h1, h2, h3, h4, by rw [harr, h5]⟩
  · right
    exact ⟨h1, by rw [harr, h2]⟩

theorem createAssignmentsRun_attempts_le (rng : Nat → Nat → Nat) (input : JsInput) :
    (createAssignmentsRun rng input).2 ≤ maxAttempts := by
  cases input with
  | notArray => simp [createAssignmentsRun, maxAttempts]
  | array ps =>
    by_cases hlen : 2 ≤ ps.length
    · rcases createAssignmentsRun_eq rng ps hlen with ⟨k, _, h2, _, _, h5⟩ | ⟨_, h2⟩
      · rw [h5]; exact h2
      · rw [h2]
    · have hlt : ps.length < 2 := by omega
      simp [createAssignmentsRun, if_pos hlt, maxAttempts]

/-- The loop is insensitive to the fuel once the fuel covers the remaining
retry budget: the source's `attempts >= maxAttempts` guard, not the fuel, is
what stops the iteration. -/
theorem santaLoop_fuel_irrelevant (rng : Nat → Nat → Nat) (gs : List Participant) :
    ∀ (f₁ f₂ a : Nat) (rcv : List Participant), a < maxAttempts →
    maxAttempts ≤ a + f₁ → maxAttempts ≤ a + f₂ →
    santaLoop rng gs rcv a f₁ = santaLoop rng gs rcv a f₂ := by
  intro f₁
  induction f₁ with
  | zero => intro f₂ a rcv h1 h2 h3; omega
  | succ f₁ ih =>
    intro f₂ a rcv h1 h2 h3
    cases f₂ with
    | zero => omega
    | succ f₂ =>
      rw [santaLoop_succ, santaLoop_succ]
      cases hb : badMatch gs (shuffle (rng a) rcv) with
      | false => simp [hb]
      | true =>
        by_cases hle : maxAttempts ≤ a + 1
        · simp [hle]
        · rw [if_neg (by simp), if_neg hle, if_neg (by simp), if_neg hle]
          exact ih f₂ (a+1) _ (by omega) (by omega) (by omega)

theorem createAssignmentsRun_short (rng : Nat → Nat → Nat) (ps : List Participant)
    (hlt : ps.length < 2) :
    createAssignmentsRun rng (.array ps) = (.error .insufficientParticipants, 0) := by
  have harr : createAssignmentsRun rng (.array ps)
      = (if ps.length < 2 then (.error .insufficientParticipants, 0)
        else match santaLoop rng ps ps 0 maxAttempts with
          | (.ok receivers, attempts) => (.ok (mkAssignments ps receivers), attempts)
          | (.error e, attempts) => (.error e, attempts)) := rfl
  rw [harr, if_pos hlt]

/-! ## Heap lemmas -/

theorem Heap.read_write_self (h : Heap) (r : Nat) (v : List Participant)
    (hr : r < h.arrays.length) : (h.write r v).read r = v := by
  unfold Heap.read Heap.write
  rw [List.getElem?_set_self hr]
  rfl

theorem Heap.read_write_ne (h : Heap) (r r' : Nat) (v : List Participant)
    (hne : r ≠ r') : (h.write r v).read r' = h.read r' := by
  unfold Heap.read Heap.write
  rw [List.getElem?_set_ne hne]

theorem Heap.write_length (h : Heap) (r : Nat) (v : List Participant) :
    (h.write r v).arrays.length = h.arrays.length := by
  unfold Heap.write
  exact List.length_set ..

theorem shuffleRefFrom_length (rand : Nat → Nat) (r : Nat) :
    ∀ (n : Nat) (h : Heap), (shuffleRefFrom rand r n h).arrays.length = h.arrays.length
  | 0, h => rfl
  | n+1, h => by
    rw [shuffleRefFrom, shuffleRefFrom_length rand r n, Heap.write_length]

theorem shuffleRefFrom_read_ne (rand : Nat → Nat) (r r' : Nat) (hne : r ≠ r') :
    ∀ (n : Nat) (h : Heap), (shuffleRefFrom rand r n h).read r' = h.read r'
  | 0, h => rfl
  | n+1, h => by
    rw [shuffleRefFrom, shuffleRefFrom_read_ne rand r r' hne n, Heap.read_write_ne h r r' _ hne]

theorem shuffleRefFrom_read_self (rand : Nat → Nat) (r : Nat) :
    ∀ (n : Nat) (h : Heap), r < h.arrays.length →
    (shuffleRefFrom rand r n h).read r = shuffleFrom rand n (h.read r)
  | 0, h, _ => rfl
  | n+1, h, hr => by
    rw [shuffleRefFrom,
      shuffleRefFrom_read_self rand r n _ (by rw [Heap.write_length]; exact hr),
      Heap.read_write_self h r _ hr]
    rfl

theorem shuffleRef_read_self (rand : Nat → Nat) (h : Heap) (r : Nat)
    (hr : r < h.arrays.length) :
    (shuffleRef rand h r).read r = shuffle rand (h.read r) :=
  shuffleRefFrom_read_self rand r ((h.read r).length - 1) h hr

theorem shuffleRef_read_ne (rand : Nat → Nat) (h : Heap) (r r' : Nat) (hne : r ≠ r') :
    (shuffleRef rand h r).read r' = h.read r' :=
  shuffleRefFrom_read_ne rand r r' hne ((h.read r).length - 1) h

theorem shuffleRef_length (rand : Nat → Nat) (h : Heap) (r : Nat) :
    (shuffleRef rand h r).arrays.length = h.arrays.length :=
  shuffleRefFrom_length rand r ((h.read r).length - 1) h

/-- One unfolding of the heap loop body. -/
theorem santaLoopH_succ (rng : Nat → Nat → Nat) (gs : List Participant) (r a fuel : Nat)
    (h : Heap) :
    santaLoopH rng gs r a (fuel+1) h =
      (if !(badMatch gs ((shuffleRef (rng a) h r).read r))
        then (.ok ((shuffleRef (rng a) h r).read r), a+1, shuffleRef (rng a) h r)
        else if maxAttempts ≤ a+1
          then (.error .derangementUnobtainable, a+1, shuffleRef (rng a) h r)
        else santaLoopH rng gs r (a+1) fuel (shuffleRef (rng a) h r)) := rfl

/-- The heap loop refines the pure loop: same result and final counter, and
the heap is only written behind the receivers reference `r`. -/
theorem santaLoopH_spec (rng : Nat → Nat → Nat) (gs : List Participant) (r : Nat) :
    ∀ (fuel a : Nat) (h : Heap), r < h.arrays.length →
    (santaLoopH rng gs r a fuel h).1 = (santaLoop rng gs (h.read r) a fuel).1 ∧
    (santaLoopH rng gs r a fuel h).2.1 = (santaLoop rng gs (h.read r) a fuel).2 ∧
    (∀ r', r' ≠ r → (santaLoopH rng gs r a fuel h).2.2.read r' = h.read r') ∧
    (santaLoopH rng gs r a fuel h).2.2.arrays.length = h.arrays.length := by
  intro fuel
  induction fuel with
  | zero => exact fun a h _ => ⟨rfl, rfl, fun r' _ => rfl, rfl⟩
  | succ fuel ih =>
    intro a h hr
    have hread : (shuffleRef (rng a) h r).read r = shuffle (rng a) (h.read r) :=
      shuffleRef_read_self (rng a) h r hr
    rw [santaLoopH_succ, santaLoop_succ, hread]
    cases hb : badMatch gs (shuffle (rng a) (h.read r)) with
    | false =>
      refine ⟨rfl, rfl, fun r' hne => ?_, shuffleRef_length (rng a) h r⟩
      simp only [Bool.not_false, if_pos]
      exact shuffleRef_read_ne (rng a) h r r' (fun he => hne he.symm)
    | true =>
      by_cases hle : maxAttempts ≤ a + 1
      · rw [if_neg (show ¬((!true) = true) by simp), if_pos hle,
          if_neg (show ¬((!true) = true) by simp), if_pos hle]
        exact ⟨rfl, rfl,
          fun r' hne => shuffleRef_read_ne (rng a) h r r' (fun he => hne he.symm),
          shuffleRef_length (rng a) h r⟩
      · rw [if_neg (show ¬((!true) = true) by simp), if_neg hle,
          if_neg (show ¬((!true) = true) by simp), if_neg hle]
        have hr2 : r < (shuffleRef (rng a) h r).arrays.length := by
          rw [shuffleRef_length]; exact hr
        obtain ⟨e1, e2, e3, e4⟩ := ih (a+1) (shuffleRef (rng a) h r) hr2
        rw [hread] at e1 e2
        refine ⟨e1, e2, fun r' hne => ?_, by rw [e4, shuffleRef_length]⟩
        rw [e3 r' hne]
        exact shuffleRef_read_ne (rng a) h r r' (fun he => hne he.symm)

theorem createAssignments_array (rng : Nat → Nat → Nat) (ps : List Participant)
    (hnot : ¬ ps.length < 2) :
    createAssignments rng (.array ps)
      = (match santaLoop rng ps ps 0 maxAttempts with
        | (.ok receivers, _) => .ok (mkAssignments ps receivers)
        | (.error e, _) => .error e) := by
  unfold createAssignments
  have harr : createAssignmentsRun rng (.array ps)
      = (if ps.length < 2 then (.error .insufficientParticipants, 0)
        else match santaLoop rng ps ps 0 maxAttempts with
          | (.ok receivers, attempts) => (.ok (mkAssignments ps receivers), attempts)
          | (.error e, attempts) => (.error e, attempts)) := rfl
  rw [harr, if_neg hnot]
  rcases hsl : santaLoop rng ps ps 0 maxAttempts with ⟨res, att⟩
  cases res <;> rfl

/-! ## Claims -/

/-- Claim C1: for ≥ 2 participants with pairwise-distinct ids, a successful
`createAssignments` returns as many assignments as participants, the giverIds
are exactly the input ids (in fact in input order), the receiverIds are a
permutation of the input ids with each id occurring exactly once, and no
assignment is a self-gift: the result is a derangement of the participant
set. -/
theorem c1_createAssignments_is_derangement (rng : Nat → Nat → Nat)
    (ps : List Participant) (as : List Assignment)
    (hlen : 2 ≤ ps.length) (hids : (ps.map (fun p => p.id)).Nodup)
    (hok : createAssignments rng (.array ps) = .ok as) :
    as.length = ps.length ∧
    as.map (fun a => a.giverId) = ps.map (fun p => p.id) ∧
    (as.map (fun a => a.receiverId)).Perm (ps.map (fun p => p.id)) ∧
    (∀ x ∈ ps.map (fun p => p.id), (as.map (fun a => a.receiverId)).count x = 1) ∧
    (∀ a ∈ as, a.giverId ≠ a.receiverId) := by
  rcases createAssignmentsRun_eq rng ps hlen with ⟨k, _, _, h3, _, h5⟩ | ⟨_, h2⟩
  · have hval : createAssignments rng (.array ps)
        = .ok (mkAssignments ps (iterShuffle rng ps k)) := by
      unfold createAssignments; rw [h5]
    rw [hok] at hval
    have has : as = mkAssignments ps (iterShuffle rng ps k) := by
      injection hval
    subst has
    have hperm : (iterShuffle rng ps k).Perm ps := iterShuffle_perm rng ps k
    have hlr : (iterShuffle rng ps k).length = ps.length := hperm.length_eq
    have hrecv : (mkAssignments ps (iterShuffle rng ps k)).map (fun a => a.receiverId)
        = (iterShuffle rng ps k).map (fun p => p.id) :=
      mkAssignments_receivers ps _ (le_of_eq hlr)
    have hmapperm : ((iterShuffle rng ps k).map (fun p => p.id)).Perm
        (ps.map (fun p => p.id)) := hperm.map _
    refine ⟨mkAssignments_length ps _ hlr,
      mkAssignments_givers ps _ (le_of_eq hlr.symm), ?_, ?_,
      mkAssignments_no_self ps _ h3⟩
    · rw [hrecv]; exact hmapperm
    · intro x hx
      rw [hrecv, hmapperm.count_eq x]
      exact List.count_eq_one_of_mem hids hx
  · exfalso
    have hval : createAssignments rng (.array ps) = .error .derangementUnobtainable := by
      unfold createAssignments; rw [h2]
    rw [hok] at hval
    simp at hval

/-- Witness for C1 at a concrete input: two distinct participants and the
draw stream that always picks index 0, which swaps them on the first
attempt. -/
theorem c1_witness :
    (2 ≤ ([⟨"a", "", ""⟩, ⟨"b", "", ""⟩] : List Participant).length) ∧
    (([⟨"a", "", ""⟩, ⟨"b", "", ""⟩] : List Participant).map (fun p => p.id)).Nodup ∧
    createAssignments (fun _ _ => 0) (.array [⟨"a", "", ""⟩, ⟨"b", "", ""⟩])
      = .ok [⟨"a", "b"⟩, ⟨"b", "a"⟩] ∧
    (([⟨"a", "b"⟩, ⟨"b", "a"⟩] : List Assignment).length
      = ([⟨"a", "", ""⟩, ⟨"b", "", ""⟩] : List Participant).length ∧
    ([⟨"a", "b"⟩, ⟨"b", "a"⟩] : List Assignment).map (fun a => a.giverId)
      = ([⟨"a", "", ""⟩, ⟨"b", "", ""⟩] : List Participant).map (fun p => p.id) ∧
    (([⟨"a", "b"⟩, ⟨"b", "a"⟩] : List Assignment).map (fun a => a.receiverId)).Perm
      (([⟨"a", "", ""⟩, ⟨"b", "", ""⟩] : List Participant).map (fun p => p.id)) ∧
    (∀ x ∈ ([⟨"a", "", ""⟩, ⟨"b", "", ""⟩] : List Participant).map (fun p => p.id),
      (([⟨"a", "b"⟩, ⟨"b", "a"⟩] : List Assignment).map (fun a => a.receiverId)).count x = 1) ∧
    (∀ a ∈ ([⟨"a", "b"⟩, ⟨"b", "a"⟩] : List Assignment), a.giverId ≠ a.receiverId)) :=
  ⟨by decide, by decide, rfl,
    c1_createAssignments_is_derangement (fun _ _ => 0)
      [⟨"a", "", ""⟩, ⟨"b", "", ""⟩] [⟨"a", "b"⟩, ⟨"b", "a"⟩]
      (by decide) (by decide) rfl⟩

/-- Claim C3: the engine performs at most 50 shuffle-and-check attempts; it
fails with `derangementUnobtainable` exactly when all 50 candidate
permutations have a position whose receiver id equals the giver id; and the
first fixed-point-free candidate within the budget is accepted and returned
(with the attempt counter at its index). -/
theorem c3_retry_budget (rng : Nat → Nat → Nat) (ps : List Participant)
    (hlen : 2 ≤ ps.length) :
    (createAssignmentsRun rng (.array ps)).2 ≤ maxAttempts ∧
    (createAssignments rng (.array ps) = .error .derangementUnobtainable ↔
      ∀ k, 1 ≤ k → k ≤ maxAttempts → badMatch ps (iterShuffle rng ps k) = true) ∧
    (∀ k, 1 ≤ k → k ≤ maxAttempts → badMatch ps (iterShuffle rng ps k) = false →
      (∀ j, 1 ≤ j → j < k → badMatch ps (iterShuffle rng ps j) = true) →
      createAssignmentsRun rng (.array ps)
        = (.ok (mkAssignments ps (iterShuffle rng ps k)), k)) := by
  refine ⟨createAssignmentsRun_attempts_le rng (.array ps), ⟨?_, ?_⟩, ?_⟩
  · intro herr k hk hk'
    rcases createAssignmentsRun_eq rng ps hlen with ⟨k', _, _, _, _, h5⟩ | ⟨h1, _⟩
    · exfalso
      have hval : createAssignments rng (.array ps)
          = .ok (mkAssignments ps (iterShuffle rng ps k')) := by
        unfold createAssignments; rw [h5]
      rw [herr] at hval
      simp at hval
    · exact h1 k hk hk'
  · intro hall
    rcases createAssignmentsRun_eq rng ps hlen with ⟨k, h1, h2, h3, _, _⟩ | ⟨_, h2⟩
    · exact absurd (hall k h1 h2) (by simp [h3])
    · unfold createAssignments; rw [h2]
  · intro k hk1 hk2 hkgood hmin
    rcases createAssignmentsRun_eq rng ps hlen with ⟨k', h1', h2', h3', h4', h5'⟩ | ⟨h1, _⟩
    · have hkk : k' = k := by
        by_contra hne
        rcases Nat.lt_or_ge k' k with hlt | hge
        · exact absurd h3' (by simp [hmin k' h1' hlt])
        · have hkk' : k < k' := by omega
          exact absurd hkgood (by simp [h4' k hk1 hkk'])
      rw [hkk] at h5'
      exact h5'
    · exact absurd hkgood (by simp [h1 k hk1 hk2])

/-- Witness for C3: the same two-participant input; with the always-0 draw
stream the first candidate is already fixed-point-free. -/
theorem c3_witness :
    (2 ≤ ([⟨"a", "", ""⟩, ⟨"b", "", ""⟩] : List Participant).length) ∧
    ((createAssignmentsRun (fun _ _ => 0)
        (.array [⟨"a", "", ""⟩, ⟨"b", "", ""⟩])).2 ≤ maxAttempts ∧
    (createAssignments (fun _ _ => 0) (.array [⟨"a", "", ""⟩, ⟨"b", "", ""⟩])
        = .error .derangementUnobtainable ↔
      ∀ k, 1 ≤ k → k ≤ maxAttempts →
        badMatch [⟨"a", "", ""⟩, ⟨"b", "", ""⟩]
          (iterShuffle (fun _ _ => 0) [⟨"a", "", ""⟩, ⟨"b", "", ""⟩] k) = true) ∧
    (∀ k, 1 ≤ k → k ≤ maxAttempts →
      badMatch [⟨"a", "", ""⟩, ⟨"b", "", ""⟩]
        (iterShuffle (fun _ _ => 0) [⟨"a", "", ""⟩, ⟨"b", "", ""⟩] k) = false →
      (∀ j, 1 ≤ j → j < k →
        badMatch [⟨"a", "", ""⟩, ⟨"b", "", ""⟩]
          (iterShuffle (fun _ _ => 0) [⟨"a", "", ""⟩, ⟨"b", "", ""⟩] j) = true) →
      createAssignmentsRun (fun _ _ => 0) (.array [⟨"a", "", ""⟩, ⟨"b", "", ""⟩])
        = (.ok (mkAssignments [⟨"a", "", ""⟩, ⟨"b", "", ""⟩]
            (iterShuffle (fun _ _ => 0) [⟨"a", "", ""⟩, ⟨"b", "", ""⟩] k)), k))) :=
  ⟨by decide, c3_retry_budget (fun _ _ => 0) [⟨"a", "", ""⟩, ⟨"b", "", ""⟩] (by decide)⟩

/-- Claim C4: on success the giver side keeps the input order — the `i`-th
assignment's giverId is the `i`-th input participant's id for every index
`i` (stated through `getElem?` so it covers all indices); only the receiver
side is permuted. -/
theorem c4_giver_order_preserved (rng : Nat → Nat → Nat) (ps : List Participant)
    (as : List Assignment) (hok : createAssignments rng (.array ps) = .ok as) :
    ∀ i : Nat, (as[i]?).map (fun a => a.giverId) = (ps[i]?).map (fun p => p.id) := by
  by_cases hlen : 2 ≤ ps.length
  · rcases createAssignmentsRun_eq rng ps hlen with ⟨k, _, _, _, _, h5⟩ | ⟨_, h2⟩
    · have hval : createAssignments rng (.array ps)
          = .ok (mkAssignments ps (iterShuffle rng ps k)) := by
        unfold createAssignments; rw [h5]
      rw [hok] at hval
      have has : as = mkAssignments ps (iterShuffle rng ps k) := by
        injection hval
      subst has
      intro i
      have hgv := mkAssignments_givers ps (iterShuffle rng ps k)
        (le_of_eq (iterShuffle_perm rng ps k).length_eq.symm)
      have hcong := congrArg (fun l => l[i]?) hgv
      simpa [List.getElem?_map] using hcong
    · exfalso
      have hval : createAssignments rng (.array ps) = .error .derangementUnobtainable := by
        unfold createAssignments; rw [h2]
      rw [hok] at hval
      simp at hval
  · exfalso
    have hval : createAssignments rng (.array ps) = .error .insufficientParticipants := by
      unfold createAssignments
      rw [createAssignmentsRun_short rng ps (by omega)]
    rw [hok] at hval
    simp at hval

/-- Witness for C4 at the concrete two-participant success. -/
theorem c4_witness :
    createAssignments (fun _ _ => 0) (.array [⟨"a", "", ""⟩, ⟨"b", "", ""⟩])
      = .ok [⟨"a", "b"⟩, ⟨"b", "a"⟩] ∧
    (∀ i : Nat, (([⟨"a", "b"⟩, ⟨"b", "a"⟩] : List Assignment)[i]?).map (fun a => a.giverId)
      = (([⟨"a", "", ""⟩, ⟨"b", "", ""⟩] : List Participant)[i]?).map (fun p => p.id)) :=
  ⟨rfl, c4_giver_order_preserved (fun _ _ => 0)
    [⟨"a", "", ""⟩, ⟨"b", "", ""⟩] [⟨"a", "b"⟩, ⟨"b", "a"⟩] rfl⟩

/-- Claim C7: the engine always terminates — the retry loop's own
`attempts >= maxAttempts` guard stops it, so its result does not depend on
the fuel once the fuel covers the remaining budget; the loop body runs at
most 50 times (final `attempts ≤ 50`); and every call ends as either a
returned assignment list or a thrown error. -/
theorem c7_engine_total (rng : Nat → Nat → Nat) (input : JsInput)
    (gs rcv : List Participant) (a f₁ f₂ : Nat)
    (ha : a < maxAttempts) (h₁ : maxAttempts ≤ a + f₁) (h₂ : maxAttempts ≤ a + f₂) :
    santaLoop rng gs rcv a f₁ = santaLoop rng gs rcv a f₂ ∧
    (createAssignmentsRun rng input).2 ≤ maxAttempts ∧
    ((∃ as, createAssignments rng input = .ok as) ∨
      (∃ e, createAssignments rng input = .error e)) := by
  refine ⟨santaLoop_fuel_irrelevant rng gs f₁ f₂ a rcv ha h₁ h₂,
    createAssignmentsRun_attempts_le rng input, ?_⟩
  cases hval : createAssignments rng input with
  | ok as => exact Or.inl ⟨as, rfl⟩
  | error e => exact Or.inr ⟨e, rfl⟩

/-- Witness for C7: concrete loop state and fuels (60 and 70 both cover the
budget from attempt 0) on a concrete input. -/
theorem c7_witness :
    (0 < maxAttempts ∧ maxAttempts ≤ 0 + 60 ∧ maxAttempts ≤ 0 + 70) ∧
    (santaLoop (fun _ _ => 0) [⟨"a", "", ""⟩, ⟨"b", "", ""⟩]
        [⟨"a", "", ""⟩, ⟨"b", "", ""⟩] 0 60
      = santaLoop (fun _ _ => 0) [⟨"a", "", ""⟩, ⟨"b", "", ""⟩]
        [⟨"a", "", ""⟩, ⟨"b", "", ""⟩] 0 70 ∧
    (createAssignmentsRun (fun _ _ => 0)
        (.array [⟨"a", "", ""⟩, ⟨"b", "", ""⟩])).2 ≤ maxAttempts ∧
    ((∃ as, createAssignments (fun _ _ => 0)
        (.array [⟨"a", "", ""⟩, ⟨"b", "", ""⟩]) = .ok as) ∨
      (∃ e, createAssignments (fun _ _ => 0)
        (.array [⟨"a", "", ""⟩, ⟨"b", "", ""⟩]) = .error e))) :=
  ⟨⟨by decide, by decide, by decide⟩,
    c7_engine_total (fun _ _ => 0) (.array [⟨"a", "", ""⟩, ⟨"b", "", ""⟩])
      [⟨"a", "", ""⟩, ⟨"b", "", ""⟩] [⟨"a", "", ""⟩, ⟨"b", "", ""⟩] 0 60 70
      (by decide) (by decide) (by decide)⟩

/-- Claim C10: with exactly two participants sharing one id, every shuffled
candidate places a receiver carrying the giver's own id at every position, so
each of the 50 attempts is rejected and the engine always exhausts the retry
budget and throws, whatever the random draws. -/
theorem c10_duplicate_ids_always_exhaust (rng : Nat → Nat → Nat)
    (p q : Participant) (hid : p.id = q.id) :
    createAssignmentsRun rng (.array [p, q])
      = (.error .derangementUnobtainable, maxAttempts) := by
  have hbad : ∀ k, 1 ≤ k → k ≤ maxAttempts →
      badMatch [p, q] (iterShuffle rng [p, q] k) = true := by
    intro k _ _
    have hperm := iterShuffle_perm rng [p, q] k
    have hlen2 : (iterShuffle rng [p, q] k).length = 2 := hperm.length_eq
    obtain ⟨x, y, hxy⟩ := List.length_eq_two.mp hlen2
    have hx : x ∈ [p, q] := hperm.mem_iff.mp (by rw [hxy]; simp)
    have hxid : x.id = p.id := by
      rcases List.mem_cons.mp hx with rfl | hx'
      · rfl
      · have : x = q := by simpa using hx'
        rw [this, ← hid]
    rw [hxy]
    simp [badMatch, hxid]
  rcases createAssignmentsRun_eq rng [p, q] (by simp) with ⟨k, h1, h2, h3, _, _⟩ | ⟨_, h2⟩
  · exact absurd (hbad k h1 h2) (by simp [h3])
  · exact h2

/-- Witness for C10: two participants with the same id `"x"`; the engine
exhausts all 50 attempts under the always-0 draw stream. -/
theorem c10_witness :
    ((⟨"x", "n1", ""⟩ : Participant).id = (⟨"x", "n2", ""⟩ : Participant).id) ∧
    createAssignmentsRun (fun _ _ => 0) (.array [⟨"x", "n1", ""⟩, ⟨"x", "n2", ""⟩])
      = (.error .derangementUnobtainable, maxAttempts) :=
  ⟨rfl, c10_duplicate_ids_always_exhaust (fun _ _ => 0)
    ⟨"x", "n1", ""⟩ ⟨"x", "n2", ""⟩ rfl⟩

/-- Claim C5: the inner shuffle is the Fisher–Yates scheme of the spec — it
permutes the array (equal multiset), it is the countdown from the last index
to 1 where step `k ≥ 1` swaps position `k` with the drawn index, the drawn
index never exceeds the position being filled, and every index `j ≤ i` is
realizable by some draw stream. -/
theorem c5_shuffle_is_fisher_yates {α : Type} (rand : Nat → Nat) (l : List α)
    (i j : Nat) (hj : j ≤ i) :
    (shuffle rand l).Perm l ∧
    shuffle rand l = shuffleFrom rand (l.length - 1) l ∧
    (∀ (k : Nat) (l' : List α),
      shuffleFrom rand (k+1) l'
        = shuffleFrom rand k (listSwap l' (k+1) (swapIndex rand (k+1)))) ∧
    (∀ k : Nat, swapIndex rand k ≤ k) ∧
    (∃ draw : Nat → Nat, swapIndex draw i = j) := by
  refine ⟨shuffle_perm rand l, rfl, fun k l' => rfl, fun k => ?_, ⟨fun _ => j, ?_⟩⟩
  · have hlt : rand k % (k + 1) < k + 1 := Nat.mod_lt _ (Nat.succ_pos k)
    unfold swapIndex
    omega
  · show j % (i + 1) = j
    exact Nat.mod_eq_of_lt (by omega)

/-- Witness for C5 on a concrete list, position and draw. -/
theorem c5_witness :
    (3 ≤ 5) ∧
    ((shuffle (fun _ => 0) ([10, 20, 30] : List Nat)).Perm [10, 20, 30] ∧
    shuffle (fun _ => 0) ([10, 20, 30] : List Nat)
      = shuffleFrom (fun _ => 0) (([10, 20, 30] : List Nat).length - 1) [10, 20, 30] ∧
    (∀ (k : Nat) (l' : List Nat),
      shuffleFrom (fun _ => 0) (k+1) l'
        = shuffleFrom (fun _ => 0) k (listSwap l' (k+1) (swapIndex (fun _ => 0) (k+1)))) ∧
    (∀ k : Nat, swapIndex (fun _ => 0) k ≤ k) ∧
    (∃ draw : Nat → Nat, swapIndex draw 5 = 3)) :=
  ⟨by decide, c5_shuffle_is_fisher_yates (fun _ => 0) [10, 20, 30] 5 3 (by decide)⟩

/-- Claim C6: the engine never mutates its argument: run over an explicit heap,
with the caller's participants array behind `pRef`, the call leaves the
caller's array exactly as it was (same elements, same order) whether it
returns or throws, and its result is that of the pure function on the
array's contents — the engine only shuffles its own freshly allocated
copy. -/
theorem c6_no_mutation (rng : Nat → Nat → Nat) (h : Heap) (pRef : Nat)
    (hvalid : pRef < h.arrays.length) :
    ((createAssignmentsH rng h pRef).2).read pRef = h.read pRef ∧
    (createAssignmentsH rng h pRef).1 = createAssignments rng (.array (h.read pRef)) := by
  have hH : createAssignmentsH rng h pRef
      = (if (h.read pRef).length < 2
          then ((.error .insufficientParticipants, h) :
            Except SantaError (List Assignment) × Heap)
        else match santaLoopH rng (h.read pRef) (h.alloc (h.read pRef)).2 0 maxAttempts
            (h.alloc (h.read pRef)).1 with
          | (.ok receivers, _, h2) => (.ok (mkAssignments (h.read pRef) receivers), h2)
          | (.error e, _, h2) => (.error e, h2)) := rfl
  by_cases hlt : (h.read pRef).length < 2
  · rw [hH, if_pos hlt]
    refine ⟨rfl, ?_⟩
    unfold createAssignments
    rw [createAssignmentsRun_short rng _ hlt]
  · rw [hH, if_neg hlt]
    have hne : (h.alloc (h.read pRef)).2 ≠ pRef := by
      show h.arrays.length ≠ pRef
      omega
    have hr1 : (h.alloc (h.read pRef)).2 < (h.alloc (h.read pRef)).1.arrays.length := by
      show h.arrays.length < (h.arrays ++ [h.read pRef]).length
      simp
    have hreadr : (h.alloc (h.read pRef)).1.read (h.alloc (h.read pRef)).2 = h.read pRef := by
      show ((h.arrays ++ [h.read pRef])[h.arrays.length]?).getD [] = h.read pRef
      rw [List.getElem?_concat_length]
      rfl
    have hreadp : (h.alloc (h.read pRef)).1.read pRef = h.read pRef := by
      show ((h.arrays ++ [h.read pRef])[pRef]?).getD [] = h.read pRef
      rw [List.getElem?_append_left hvalid]
      rfl
    obtain ⟨e1, e2, e3, e4⟩ := santaLoopH_spec rng (h.read pRef) (h.alloc (h.read pRef)).2
      maxAttempts 0 (h.alloc (h.read pRef)).1 hr1
    rw [hreadr] at e1
    rcases hsh : santaLoopH rng (h.read pRef) (h.alloc (h.read pRef)).2 0 maxAttempts
      (h.alloc (h.read pRef)).1 with ⟨res, att, h2⟩
    rw [hsh] at e1 e3
    have hframe : h2.read pRef = h.read pRef := by
      have h3 := e3 pRef (fun he => hne he.symm)
      rw [hreadp] at h3
      exact h3
    have hpure := createAssignments_array rng (h.read pRef) hlt
    rcases hsl : santaLoop rng (h.read pRef) (h.read pRef) 0 maxAttempts with ⟨pres, patt⟩
    rw [hsl] at e1 hpure
    cases pres with
    | ok rcv =>
      have hres : res = Except.ok rcv := e1
      subst hres
      exact ⟨hframe, by rw [hpure]⟩
    | error e =>
      have hres : res = Except.error e := e1
      subst hres
      exact ⟨hframe, by rw [hpure]⟩

/-- Witness for C6: a one-array heap holding two participants. -/
theorem c6_witness :
    (0 < (Heap.mk [[⟨"a", "", ""⟩, ⟨"b", "", ""⟩]]).arrays.length) ∧
    (((createAssignmentsH (fun _ _ => 0) (Heap.mk [[⟨"a", "", ""⟩, ⟨"b", "", ""⟩]]) 0).2).read 0
      = (Heap.mk [[⟨"a", "", ""⟩, ⟨"b", "", ""⟩]]).read 0 ∧
    (createAssignmentsH (fun _ _ => 0) (Heap.mk [[⟨"a", "", ""⟩, ⟨"b", "", ""⟩]]) 0).1
      = createAssignments (fun _ _ => 0)
        (.array ((Heap.mk [[⟨"a", "", ""⟩, ⟨"b", "", ""⟩]]).read 0))) :=
  ⟨by decide, c6_no_mutation (fun _ _ => 0)
    (Heap.mk [[⟨"a", "", ""⟩, ⟨"b", "", ""⟩]]) 0 (by decide)⟩

/-- Claim C2: a non-array input or fewer than 2 participants makes the engine
throw `insufficientParticipants` with the attempt counter still at 0 (no
shuffle attempt is ever made), and the group-creation route answers any
request with fewer than 2 participants with HTTP 400 before the engine runs,
leaving the store untouched. -/
theorem c2_insufficient_participants (rng : Nat → Nat → Nat) (ps : List Participant)
    (hlt : ps.length < 2) (freshIds : Nat → String)
    (groupId groupCode createdAt : String) (store : FileGroups)
    (groupName organizerName organizerEmail : String)
    (rps : List ReqParticipant) (hrlt : rps.length < 2) :
    createAssignmentsRun rng .notArray = (.error .insufficientParticipants, 0) ∧
    createAssignmentsRun rng (.array ps) = (.error .insufficientParticipants, 0) ∧
    ∃ msg, postGroupsFile rng freshIds groupId groupCode createdAt store
      groupName organizerName organizerEmail (.array rps) = (.badRequest msg, store) := by
  refine ⟨rfl, createAssignmentsRun_short rng ps hlt, ?_⟩
  have hpost : postGroupsFile rng freshIds groupId groupCode createdAt store
      groupName organizerName organizerEmail (.array rps)
      = (if (groupName == "" || organizerName == "" || organizerEmail == "") = true then
          (.badRequest "groupName, organizerName, organizerEmail, and participants[] are required.",
            store)
        else if rps.length < 2 then
          (.badRequest "At least 2 participants are required.", store)
        else match createAssignments rng (.array (assignIds freshIds 0 rps)) with
          | .error _ => (.serverError "Failed to create group.", store)
          | .ok assignments =>
            (.created groupId groupCode, storeSet store groupId
              { id := groupId, code := groupCode, groupName := groupName,
                organizerName := organizerName, organizerEmail := organizerEmail,
                participants := assignIds freshIds 0 rps, assignments := assignments,
                createdAt := createdAt })) := rfl
  by_cases hv : (groupName == "" || organizerName == "" || organizerEmail == "") = true
  · exact ⟨_, by rw [hpost, if_pos hv]⟩
  · exact ⟨_, by rw [hpost, if_neg hv, if_pos hrlt]⟩

/-- Witness for C2: a singleton engine input and an empty route request. -/
theorem c2_witness :
    (([(⟨"a", "", ""⟩ : Participant)] : List Participant).length < 2) ∧
    (([] : List ReqParticipant).length < 2) ∧
    (createAssignmentsRun (fun _ _ => 0) .notArray = (.error .insufficientParticipants, 0) ∧
    createAssignmentsRun (fun _ _ => 0) (.array [⟨"a", "", ""⟩])
      = (.error .insufficientParticipants, 0) ∧
    ∃ msg, postGroupsFile (fun _ _ => 0) (fun _ => "id") "g1" "SANTA-AAAAAA" "now" []
      "G" "Org" "org@x.test" (.array []) = (.badRequest msg, [])) :=
  ⟨by decide, by decide,
    c2_insufficient_participants (fun _ _ => 0) [⟨"a", "", ""⟩] (by decide)
      (fun _ => "id") "g1" "SANTA-AAAAAA" "now" [] "G" "Org" "org@x.test" [] (by decide)⟩

/-- Claim C8: if the engine throws while creating a group or replacing the
participants of a group (file-storage mode), the handler answers without
touching the stored groups: no group, participant, or assignment data is
persisted, because the store writes come after the engine call. -/
theorem c8_engine_failure_leaves_store (rng : Nat → Nat → Nat) (freshIds : Nat → String)
    (groupId groupCode createdAt : String) (store : FileGroups)
    (groupName organizerName organizerEmail idOrCode : String)
    (ps ps2 : List ReqParticipant)
    (h1 : ∃ e, createAssignments rng (.array (assignIds freshIds 0 ps)) = .error e)
    (h2 : ∃ e, createAssignments rng
      (.array (assignIds freshIds 0 (cleanParticipants ps2))) = .error e) :
    (postGroupsFile rng freshIds groupId groupCode createdAt store
      groupName organizerName organizerEmail (.array ps)).2 = store ∧
    (putParticipantsFile rng freshIds store idOrCode (.array ps2)).2 = store := by
  obtain ⟨e1, he1⟩ := h1
  obtain ⟨e2, he2⟩ := h2
  constructor
  · have hpost : postGroupsFile rng freshIds groupId groupCode createdAt store
        groupName organizerName organizerEmail (.array ps)
        = (if (groupName == "" || organizerName == "" || organizerEmail == "") = true then
            (.badRequest "groupName, organizerName, organizerEmail, and participants[] are required.",
              store)
          else if ps.length < 2 then
            (.badRequest "At least 2 participants are required.", store)
          else match createAssignments rng (.array (assignIds freshIds 0 ps)) with
            | .error _ => (.serverError "Failed to create group.", store)
            | .ok assignments =>
              (.created groupId groupCode, storeSet store groupId
                { id := groupId, code := groupCode, groupName := groupName,
                  organizerName := organizerName, organizerEmail := organizerEmail,
                  participants := assignIds freshIds 0 ps, assignments := assignments,
                  createdAt := createdAt })) := rfl
    rw [hpost]
    by_cases hv : (groupName == "" || organizerName == "" || organizerEmail == "") = true
    · rw [if_pos hv]
    · rw [if_neg hv]
      by_cases hl : ps.length < 2
      · rw [if_pos hl]
      · rw [if_neg hl, he1]
  · have hput : putParticipantsFile rng freshIds store idOrCode (.array ps2)
        = (if (cleanParticipants ps2).length < 2 then
            (.badRequest "At least 2 non-empty participants (name or email) are required.",
              store)
          else match findFileGroupByIdOrCode store idOrCode with
            | none => (.notFound "Group not found.", store)
            | some g =>
              match createAssignments rng
                  (.array (assignIds freshIds 0 (cleanParticipants ps2))) with
              | .error _ => (.serverError "Failed to update participants.", store)
              | .ok assignments =>
                (.ok "Participants replaced.", storeSet store g.id
                  { g with
                      participants := assignIds freshIds 0 (cleanParticipants ps2)
                      assignments := assignments })) := rfl
    rw [hput]
    by_cases hl : (cleanParticipants ps2).length < 2
    · rw [if_pos hl]
    · rw [if_neg hl]
      cases hf : findFileGroupByIdOrCode store idOrCode with
      | none => rfl
      | some g => rw [he2]

/-- Witness for C8: the draw stream `fun _ i => i` makes every shuffle the
identity, so the engine rejects all 50 candidates and throws on any input. -/
theorem c8_witness :
    ((∃ e, createAssignments (fun _ i => i)
      (.array (assignIds (fun _ => "p") 0 [⟨"n1", "e1"⟩, ⟨"n2", "e2"⟩])) = .error e) ∧
    (∃ e, createAssignments (fun _ i => i)
      (.array (assignIds (fun _ => "p") 0
        (cleanParticipants [⟨"n1", "e1"⟩, ⟨"n2", "e2"⟩]))) = .error e)) ∧
    ((postGroupsFile (fun _ i => i) (fun _ => "p") "g1" "SANTA-AAAAAA" "now" []
      "G" "Org" "org@x.test" (.array [⟨"n1", "e1"⟩, ⟨"n2", "e2"⟩])).2 = [] ∧
    (putParticipantsFile (fun _ i => i) (fun _ => "p") [] "g1"
      (.array [⟨"n1", "e1"⟩, ⟨"n2", "e2"⟩])).2 = []) :=
  ⟨⟨⟨.derangementUnobtainable, rfl⟩, ⟨.derangementUnobtainable, rfl⟩⟩,
    c8_engine_failure_leaves_store (fun _ i => i) (fun _ => "p") "g1" "SANTA-AAAAAA" "now"
      [] "G" "Org" "org@x.test" "g1" [⟨"n1", "e1"⟩, ⟨"n2", "e2"⟩] [⟨"n1", "e1"⟩, ⟨"n2", "e2"⟩]
      ⟨.derangementUnobtainable, rfl⟩ ⟨.derangementUnobtainable, rfl⟩⟩

/-! ## Group code lemmas -/

theorem getD_mem_of_lt (l : List Char) (n : Nat) (d : Char) (h : n < l.length) :
    l.getD n d ∈ l := by
  rw [List.getD_eq_getElem l d h]
  exact List.getElem_mem h

theorem codeChar_mem (d : Nat) : codeChar d ∈ CODE_CHARS.data := by
  unfold codeChar
  exact getD_mem_of_lt _ _ _ (Nat.mod_lt _ (by decide))

theorem foldl_append_singleton (f : Nat → Char) :
    ∀ (l : List Nat) (s : List Char),
    l.foldl (fun acc i => acc ++ [f i]) s = s ++ l.map f
  | [], s => by simp
  | i :: rest, s => by
    rw [List.foldl_cons, foldl_append_singleton f rest (s ++ [f i]), List.map_cons,
      List.append_assoc]
    rfl

theorem randomGroupCode_data (rand : Nat → Nat) :
    (randomGroupCode rand).data
      = "SANTA-".data ++ (List.range 6).map (fun i => codeChar (rand i)) :=
  foldl_append_singleton (fun i => codeChar (rand i)) (List.range 6) "SANTA-".data

theorem generateUniqueGroupCodeFile_spec (rand : Nat → Nat → Nat) (store : FileGroups) :
    ∀ (fuel : Nat) (c : String), generateUniqueGroupCodeFile rand store fuel = some c →
    (∃ k, c = randomGroupCode (rand k)) ∧ c ∉ existingCodesOf store
  | 0, c, h => by simp [generateUniqueGroupCodeFile] at h
  | fuel+1, c, h => by
    simp only [generateUniqueGroupCodeFile] at h
    by_cases hmem : randomGroupCode (rand fuel) ∈ existingCodesOf store
    · rw [if_pos hmem] at h
      exact generateUniqueGroupCodeFile_spec rand store fuel c h
    · rw [if_neg hmem] at h
      have hc : randomGroupCode (rand fuel) = c := by injection h
      exact ⟨⟨fuel, hc.symm⟩, by rw [← hc]; exact hmem⟩

/-- Claim C9: every `randomGroupCode` output is `"SANTA-"` followed by exactly
six characters of the 32-symbol alphabet (no `0`, `1`, `O`, `I`), and every
code `generateUniqueGroupCodeFile` returns differs from the code of every
group already stored. -/
theorem c9_group_code_format (rand : Nat → Nat) (rand2 : Nat → Nat → Nat)
    (store : FileGroups) (fuel : Nat) (c : String)
    (hgen : generateUniqueGroupCodeFile rand2 store fuel = some c) :
    ((randomGroupCode rand).data
        = "SANTA-".data ++ (List.range 6).map (fun i => codeChar (rand i)) ∧
      ((List.range 6).map (fun i => codeChar (rand i))).length = 6 ∧
      (∀ ch ∈ (List.range 6).map (fun i => codeChar (rand i)), ch ∈ CODE_CHARS.data)) ∧
    (∀ g ∈ store.map Prod.snd, g.code ≠ c) := by
  refine ⟨⟨randomGroupCode_data rand, by simp, ?_⟩, ?_⟩
  · intro ch hch
    rw [List.mem_map] at hch
    obtain ⟨i, _, rfl⟩ := hch
    exact codeChar_mem (rand i)
  · obtain ⟨⟨k, hk⟩, hnot⟩ := generateUniqueGroupCodeFile_spec rand2 store fuel c hgen
    intro g hg heq
    have hcne : c ≠ "" := by
      intro hcempty
      have hdata := congrArg String.data hk
      rw [hcempty, randomGroupCode_data] at hdata
      exact absurd hdata (by simp)
    by_cases hgc : g.code = ""
    · rw [hgc] at heq
      exact hcne heq.symm
    · have hbool : (g.code != "") = true := by
        simp only [bne_iff_ne, ne_eq]
        exact hgc
      have hmem : c ∈ existingCodesOf store := by
        rw [← heq]
        exact List.mem_filter.mpr ⟨List.mem_map.mpr ⟨g, hg, rfl⟩, hbool⟩
      exact hnot hmem

/-- Witness for C9: the always-0 stream draws `'A'` six times over the empty
store, yielding `SANTA-AAAAAA` on the first try. -/
theorem c9_witness :
    (generateUniqueGroupCodeFile (fun _ _ => 0) [] 1 = some "SANTA-AAAAAA") ∧
    (((randomGroupCode (fun _ => 0)).data
        = "SANTA-".data ++ (List.range 6).map (fun i => codeChar ((fun _ => 0) i)) ∧
      ((List.range 6).map (fun i => codeChar ((fun _ => 0) i))).length = 6 ∧
      (∀ ch ∈ (List.range 6).map (fun i => codeChar ((fun _ => 0) i)),
        ch ∈ CODE_CHARS.data)) ∧
    (∀ g ∈ ([] : FileGroups).map Prod.snd, g.code ≠ "SANTA-AAAAAA")) :=
  ⟨rfl, c9_group_code_format (fun _ => 0) (fun _ _ => 0) [] 1 "SANTA-AAAAAA" rfl⟩

end Santa
